import Mathlib

/-
  Verification of the transac authentication core (PoW challenge engine,
  JWT issuance/validation, revocation registry, auth-gate middleware)
  against its natural-language specification.

  Shallow embedding conventions:
  * machine integers (u32, u64, i64 timestamps) are Nat / Int;
  * the external SHA-256 implementation (sha2 crate) is an abstract
    parameter `sha256 : List Nat -> List Nat` of every function that uses it;
  * base64 (base64 crate, STANDARD and URL_SAFE engines) is modelled
    concretely below;
  * the Mutex<HashMap<String, PowChallenge>> challenge store is explicit
    state: an association list with unique-key lookup semantics;
  * JWT encode/decode (jsonwebtoken crate) is modelled symbolically: a
    token records its header algorithm, its claim payload and the HMAC
    key it was signed with; signature verification succeeds exactly when
    the verifying key equals the signing key (HMAC is collision-free in
    the symbolic model).
-/

namespace Transac

/-! ## Association-list maps (model of HashMap / of the revocation table) -/

def alistFind {α : Type} : List (String × α) → String → Option α
  | [], _ => none
  | (k, v) :: rest, key => if k = key then some v else alistFind rest key

def alistErase {α : Type} (l : List (String × α)) (key : String) : List (String × α) :=
  l.filter (fun p => p.1 != key)

/-! ## base64 (model of the base64 crate, STANDARD alphabet with padding) -/

def b64Alphabet : List Char :=
  "ABCDEFGHIJKLMNOPQRSTUVWXYZabcdefghijklmnopqrstuvwxyz0123456789+/".data

def b64CharOfVal (v : Nat) : Char := b64Alphabet.getD v 'A'

def b64ValOfChar (c : Char) : Option Nat :=
  let idx := b64Alphabet.indexOf c
  if idx < 64 then some idx else none

def base64EncodeBytes : List Nat → List Char
  | [] => []
  | [b1] =>
      [b64CharOfVal (b1 / 4), b64CharOfVal (b1 % 4 * 16), '=', '=']
  | [b1, b2] =>
      [b64CharOfVal (b1 / 4), b64CharOfVal (b1 % 4 * 16 + b2 / 16),
       b64CharOfVal (b2 % 16 * 4), '=']
  | b1 :: b2 :: b3 :: rest =>
      b64CharOfVal (b1 / 4) :: b64CharOfVal (b1 % 4 * 16 + b2 / 16) ::
      b64CharOfVal (b2 % 16 * 4 + b3 / 64) :: b64CharOfVal (b3 % 64) ::
      base64EncodeBytes rest

def base64Encode (bs : List Nat) : String := String.mk (base64EncodeBytes bs)

/-- Decode a base64 char list, 4 chars to 3 bytes, canonical padding as the
base64 crate STANDARD engine requires (nonzero trailing bits rejected). -/
def base64DecodeChars : List Char → Option (List Nat)
  | [] => some []
  | c1 :: c2 :: c3 :: c4 :: rest =>
      match b64ValOfChar c1, b64ValOfChar c2 with
      | some v1, some v2 =>
          if c3 = '=' then
            if c4 = '=' && rest.isEmpty && v2 % 16 == 0 then
              some [v1 * 4 + v2 / 16]
            else none
          else
            match b64ValOfChar c3 with
            | some v3 =>
                if c4 = '=' then
                  if rest.isEmpty && v3 % 4 == 0 then
                    some [v1 * 4 + v2 / 16, v2 % 16 * 16 + v3 / 4]
                  else none
                else
                  match b64ValOfChar c4, base64DecodeChars rest with
                  | some v4, some tail =>
                      some ((v1 * 4 + v2 / 16) :: (v2 % 16 * 16 + v3 / 4) ::
                            (v3 % 4 * 64 + v4) :: tail)
                  | _, _ => none
            | none => none
      | _, _ => none
  | _ => none

def base64Decode (s : String) : Option (List Nat) := base64DecodeChars s.data

/-! ## Shared error type (src/error.rs, AppError and its IntoResponse) -/

inductive AppError
  | Validation (msg : String)
  | NotFound (msg : String)
  | Internal (msg : String)
  | Database (msg : String)
deriving Repr, DecidableEq

/-- HTTP status assigned by AppError::into_response (src/error.rs lines 26-49). -/
def AppError.statusCode : AppError → Nat
  | .Validation _ => 400
  | .NotFound _ => 404
  | .Internal _ => 500
  | .Database _ => 500

/-! ## PoW data model (src/crypto/mod.rs, types module) -/

structure PowChallenge where
  challenge_id : String
  challenge_data : String
  difficulty : Nat
  expires_at : Int
  created_at : Int
deriving Repr, DecidableEq

structure PowSolution where
  challenge_id : String
  nonce : Nat
  hash : String
deriving Repr, DecidableEq

structure VerificationRequest where
  solution : PowSolution
  public_key : String
  relay_id : String
deriving Repr, DecidableEq

/-- The contents of the PowService challenges map
(Arc<Mutex<HashMap<String, PowChallenge>>>). -/
abbrev ChallengeStore := List (String × PowChallenge)

/-! ## PoW service (src/crypto/pow.rs) -/

/-- PowService::compute_hash: base64(STANDARD) of
sha256(challenge_data bytes followed by the 8 little-endian nonce bytes). -/
def u64LeBytes (n : Nat) : List Nat := (List.range 8).map (fun i => n / 256 ^ i % 256)

/-- UTF-8 bytes of one char (str::as_bytes encoding). -/
def utf8Bytes (c : Char) : List Nat :=
  let n := c.toNat
  if n < 128 then [n]
  else if n < 2048 then [192 + n / 64, 128 + n % 64]
  else if n < 65536 then [224 + n / 4096, 128 + n / 64 % 64, 128 + n % 64]
  else [240 + n / 262144, 128 + n / 4096 % 64, 128 + n / 64 % 64, 128 + n % 64]

def strBytes (s : String) : List Nat := (s.data.map utf8Bytes).flatten

def computeHash (sha256 : List Nat → List Nat) (challenge_data : String) (nonce : Nat) :
    String :=
  base64Encode (sha256 (strBytes challenge_data ++ u64LeBytes nonce))

/-- Number of leading zero bits of a byte (u8::leading_zeros). -/
def byteLeadingZeros (b : Nat) : Nat :=
  if b ≥ 128 then 0 else if b ≥ 64 then 1 else if b ≥ 32 then 2 else if b ≥ 16 then 3
  else if b ≥ 8 then 4 else if b ≥ 4 then 5 else if b ≥ 2 then 6 else if b ≥ 1 then 7
  else 8

/-- The loop of PowService::meets_difficulty: 8 per zero byte, then the
leading zeros of the first nonzero byte, then break. -/
def countLeadingZeroBits : List Nat → Nat
  | [] => 0
  | b :: rest => if b = 0 then 8 + countLeadingZeroBits rest else byteLeadingZeros b

/-- PowService::meets_difficulty (src/crypto/pow.rs lines 87-105). -/
def meetsDifficulty (hash : String) (difficulty : Nat) : Except AppError Bool :=
  match base64Decode hash with
  | none => .error (.Validation "Invalid base64 hash")
  | some bytes => .ok (decide (countLeadingZeroBits bytes ≥ difficulty))

/-- PowService::verify_solution (src/crypto/pow.rs lines 48-77), explicit
state passing for the locked challenge map; `now` is Utc::now(). -/
def verifySolution (sha256 : List Nat → List Nat) (store : ChallengeStore) (now : Int)
    (solution : PowSolution) : Except AppError Unit × ChallengeStore :=
  match alistFind store solution.challenge_id with
  | none =>
      (.error (.Validation ("Challenge not found: " ++ solution.challenge_id)), store)
  | some challenge =>
      if challenge.expires_at < now then
        (.error (.Validation "Challenge has expired"),
         alistErase store solution.challenge_id)
      else
        let computed := computeHash sha256 challenge.challenge_data solution.nonce
        if computed ≠ solution.hash then
          (.error (.Validation "Invalid hash in solution"), store)
        else
          match meetsDifficulty computed challenge.difficulty with
          | .error e => (.error e, store)
          | .ok b =>
              if b then (.ok (), alistErase store solution.challenge_id)
              else
                (.error (.Validation ("Hash does not meet difficulty requirement of " ++
                   toString challenge.difficulty ++ " leading zeros")), store)

/-! ## Symbolic JWT model (jsonwebtoken crate)

A serialized token is modelled by the data that determines it: header
algorithm, claim payload, and the HMAC key it was signed with.  The payload
carries the union of the fields of the two Claims structs in the source
(src/auth/claims.rs: sub/pub_key/exp and src/auth/mod.rs:
device_id/user_role/phone_number/exp); a field absent from the encoded
JSON is `none`. -/

structure JwtPayload where
  sub : Option String := none
  pub_key : Option String := none
  device_id : Option String := none
  user_role : Option String := none
  phone_number : Option String := none
  exp : Option Int := none
deriving Repr, DecidableEq

structure Jwt where
  alg : String
  payload : JwtPayload
  macKey : String
deriving Repr, DecidableEq

inductive JwtError
  | invalidSignature
  | invalidAlgorithm
  | missingField (f : String)
  | expiredSignature
  | malformedToken
deriving Repr, DecidableEq

/-- jsonwebtoken default leeway, seconds. -/
def jwtLeeway : Int := 60

/-! ## src/auth/mod.rs: compiled-in secret, issue_jwt, validate_jwt -/

/-- The constant at src/auth/mod.rs line 5:
`const JWT_SECRET: &[u8] = b"super_secret_key_change_me";`. -/
def authModJwtSecret : String := "super_secret_key_change_me"

/-- The Claims struct of src/auth/mod.rs lines 7-13. -/
structure AuthClaims where
  device_id : String
  user_role : String
  phone_number : Option String
  exp : Int
deriving Repr, DecidableEq

/-- issue_jwt (src/auth/mod.rs lines 15-38): claims with
exp = now + expires_in_secs, encoded under the compiled-in secret. -/
def issueJwt (now : Int) (device_id user_role : String) (phone_number : Option String)
    (expires_in_secs : Int) : Jwt :=
  { alg := "HS256"
    payload := { device_id := some device_id, user_role := some user_role,
                 phone_number := phone_number, exp := some (now + expires_in_secs) }
    macKey := authModJwtSecret }

/-- validate_jwt (src/auth/mod.rs lines 40-46): decode::<Claims> under the
compiled-in secret with Validation::default() (HS256, exp required,
exp validated with 60 s leeway); deserializing Claims requires device_id
and user_role to be present. -/
def validateJwtAt (now : Int) (t : Jwt) : Except JwtError AuthClaims :=
  if t.alg ≠ "HS256" then .error .invalidAlgorithm
  else if t.macKey ≠ authModJwtSecret then .error .invalidSignature
  else
    match t.payload.exp with
    | none => .error (.missingField "exp")
    | some e =>
        if e < now - jwtLeeway then .error .expiredSignature
        else
          match t.payload.device_id, t.payload.user_role with
          | some d, some r => .ok ⟨d, r, t.payload.phone_number, e⟩
          | _, _ => .error (.missingField "device_id or user_role")

/-! ## src/auth/jwt_service.rs: JwtService -/

/-- JwtService::new (src/auth/jwt_service.rs lines 14-19): the secret is
env JWT_SECRET, with a compiled-in fallback when the variable is unset. -/
def jwtServiceSecret (env : String → Option String) : String :=
  (env "JWT_SECRET").getD "your-secret-key-change-in-production"

/-- JwtService::generate_token (src/auth/jwt_service.rs lines 31-41):
claims {sub := relay_id, pub_key := public_key, exp := now + 24 h}. -/
def generateToken (env : String → Option String) (now : Int)
    (relay_id public_key : String) : Jwt :=
  { alg := "HS256"
    payload := { sub := some relay_id, pub_key := some public_key,
                 exp := some (now + 24 * 3600) }
    macKey := jwtServiceSecret env }

/-! ## Auth gate middleware (src/crypto/middleware.rs) -/

/-- should_skip_validation (src/crypto/middleware.rs lines 14-27). -/
def publicPaths : List String := ["/healthz", "/api/v1/pow/challenge", "/api/v1/pow/verify"]

def charsLead : List Char → List Char → Bool
  | [], _ => true
  | _ :: _, [] => false
  | a :: as, b :: bs => a == b && charsLead as bs

/-- str::starts_with on the path. -/
def strStartsWith (s pre : String) : Bool := charsLead pre.data s.data

def shouldSkipValidation (path : String) : Bool :=
  publicPaths.any (fun p => path == p || strStartsWith path (p ++ "/"))

/-- The Authorization header of a request.  `bearerJwt` is a header
"Bearer t" whose token part parses as a JWT; `bearerRaw` is a header
"Bearer s" whose token part is not a well-formed JWT; `notBearer` is any
other header value (extract_token strips the "Bearer " text). -/
inductive AuthorizationHeader
  | missing
  | notBearer (raw : String)
  | bearerJwt (t : Jwt)
  | bearerRaw (s : String)

/-- The token string carried after "Bearer ". -/
inductive BearerToken
  | wellFormed (t : Jwt)
  | unparseable (s : String)

/-- extract_token (src/crypto/middleware.rs lines 31-40). -/
def extractToken : AuthorizationHeader → Option BearerToken
  | .missing => none
  | .notBearer _ => none
  | .bearerJwt t => some (.wellFormed t)
  | .bearerRaw s => some (.unparseable s)

/-- validate_jwt applied to the extracted token text: a string that is not
a well-formed JWT fails decoding. -/
def validateBearer (now : Int) : BearerToken → Except JwtError AuthClaims
  | .wellFormed t => validateJwtAt now t
  | .unparseable _ => .error .malformedToken

/-- A request as the middleware sees it: its path, its Authorization
header, and the Arc<DatabaseConnection> extension.  The connection is
modelled as the outcome of RevocationRepo::is_revoked per subject
(`Except Unit Bool`: error = DbErr); `none` models a request with no db
extension. -/
structure GateRequest where
  path : String
  authorization : AuthorizationHeader
  db : Option (String → Except Unit Bool)

inductive GateDecision
  | admitted
  | rejected (status : Nat)
deriving Repr, DecidableEq

/-- crypto_validation_middleware (src/crypto/middleware.rs lines 44-107). -/
def cryptoValidationMiddleware (now : Int) (req : GateRequest) : GateDecision :=
  if shouldSkipValidation req.path then .admitted
  else
    match extractToken req.authorization with
    | some tok =>
        match validateBearer now tok with
        | .error _ => .rejected 401
        | .ok claims =>
            match req.db with
            | none => .rejected 500
            | some isRevokedQuery =>
                match isRevokedQuery claims.device_id with
                | .ok true => .rejected 401
                | .ok false => .admitted
                | .error _ => .rejected 500
    | none => .rejected 401

/-! ## Revocation registry (src/db/revocation.rs over the revocation table)

The table (migration m20230913_create_device_cert_tables.rs) has rows
{device_id : String primary key, is_revocked : Bool}; it is modelled as an
association list, sea_orm find_by_id / insert / update as the
corresponding map operations. -/

abbrev RevocationTable := List (String × Bool)

namespace RevocationRepo

/-- RevocationRepo::is_revoked: row absent defaults to false. -/
def isRevoked (t : RevocationTable) (device_id : String) : Bool :=
  (alistFind t device_id).getD false

/-- RevocationRepo::_revoke: update the row to true if present, else
insert a fresh row with is_revocked = true. -/
def revoke (t : RevocationTable) (device_id : String) : RevocationTable :=
  match alistFind t device_id with
  | some _ => t.map (fun p => if p.1 = device_id then (p.1, true) else p)
  | none => t ++ [(device_id, true)]

/-- RevocationRepo::clear_revocation: update the row to false if present,
else do nothing. -/
def clearRevocation (t : RevocationTable) (device_id : String) : RevocationTable :=
  match alistFind t device_id with
  | some _ => t.map (fun p => if p.1 = device_id then (p.1, false) else p)
  | none => t

end RevocationRepo

/-! ## POST /api/v1/pow/verify handler (src/main.rs lines 180-204) -/

/-- verify_pow_solution: on PoW failure the AppError is the response
(status from AppError::into_response); on success a token is minted by
JwtService::generate_token and returned with status 200. -/
def verifyPowSolutionHandler (sha256 : List Nat → List Nat)
    (env : String → Option String) (store : ChallengeStore) (now : Int)
    (req : VerificationRequest) : (Nat × Option Jwt) × ChallengeStore :=
  match verifySolution sha256 store now req.solution with
  | (.error e, store2) => ((e.statusCode, none), store2)
  | (.ok _, store2) => ((200, some (generateToken env now req.relay_id req.public_key)), store2)

/-! ## Gate decision transcribed from the specification (for refinement) -/

/-- The outcome of the revocation lookup as seen from a request: a missing
db extension and a DbErr from the query are both lookup failures. -/
def revocationLookup (req : GateRequest) (subject : String) : Except Unit Bool :=
  match req.db with
  | none => .error ()
  | some q => q subject

/-- Gate decision written from the wording of the specification (public
path admitted with no credential; absent/malformed/invalid bearer token
rejected Unauthorized; revoked subject rejected Unauthorized; failed
revocation lookup rejected InternalError; otherwise admitted), to be
compared with `cryptoValidationMiddleware`. -/
def gateSpecDecision (now : Int) (req : GateRequest) : GateDecision :=
  if shouldSkipValidation req.path then .admitted
  else
    match extractToken req.authorization with
    | none => .rejected 401
    | some tok =>
        match validateBearer now tok with
        | .error _ => .rejected 401
        | .ok claims =>
            match revocationLookup req claims.device_id with
            | .ok true => .rejected 401
            | .error _ => .rejected 500
            | .ok false => .admitted

/-! ## Helper lemmas -/

theorem alistFind_erase {α : Type} (l : List (String × α)) (key : String) :
    alistFind (alistErase l key) key = none := by
  induction l with
  | nil => rfl
  | cons p rest ih =>
      obtain ⟨k, v⟩ := p
      by_cases h : k = key
      · simpa [alistErase, List.filter_cons, h] using ih
      · simp only [alistErase, List.filter_cons] at ih ⊢
        simp only [bne_iff_ne, ne_eq, h, not_false_eq_true, if_true, ite_true]
        simpa [alistFind, h] using ih

theorem alistFind_map_setval {α : Type} (l : List (String × α)) (key : String) (b : α) :
    alistFind (l.map (fun p => if p.1 = key then (p.1, b) else p)) key
      = (alistFind l key).map (fun _ => b) := by
  induction l with
  | nil => rfl
  | cons p rest ih =>
      obtain ⟨k, v⟩ := p
      simp only [List.map_cons]
      by_cases h : k = key
      · subst h
        rw [if_pos rfl]
        simp [alistFind, ih]
      · rw [if_neg h]
        simp only [alistFind]
        rw [if_neg h, if_neg h, ih]

theorem alistFind_append {α : Type} (l1 l2 : List (String × α)) (key : String)
    (h : alistFind l1 key = none) :
    alistFind (l1 ++ l2) key = alistFind l2 key := by
  induction l1 with
  | nil => rfl
  | cons p rest ih =>
      obtain ⟨k, v⟩ := p
      by_cases hk : k = key
      · simp [alistFind, hk] at h
      · simp [alistFind, hk] at h ⊢
        exact ih h

/-- Success characterization of verify_solution: correct hash meeting the
difficulty on an unexpired, present challenge verifies Ok and erases the
entry. -/
theorem verifySolution_ok (sha256 : List Nat → List Nat) (store : ChallengeStore)
    (now : Int) (sol : PowSolution) (ch : PowChallenge)
    (hfind : alistFind store sol.challenge_id = some ch)
    (hexp : ¬ ch.expires_at < now)
    (hhash : sol.hash = computeHash sha256 ch.challenge_data sol.nonce)
    (hdiff : meetsDifficulty (computeHash sha256 ch.challenge_data sol.nonce)
               ch.difficulty = .ok true) :
    verifySolution sha256 store now sol = (.ok (), alistErase store sol.challenge_id) := by
  unfold verifySolution
  rw [hfind]
  rw [← hhash] at hdiff
  simp [hexp, hhash.symm, hdiff]

/-! ## Claim theorems -/

/-- C2: for every outstanding (present, unexpired) challenge, a solution
whose hash equals the server-recomputed hash over challenge_data followed
by the little-endian nonce and which meets the difficulty makes
verify_solution succeed; the success removes the challenge from the
store, and an immediate repeat submission with the same challenge_id
returns the ChallengeNotFound error. -/
theorem verify_solution_consumes_once (sha256 : List Nat → List Nat)
    (store : ChallengeStore) (now : Int) (sol : PowSolution) (ch : PowChallenge)
    (hfind : alistFind store sol.challenge_id = some ch)
    (hexp : ¬ ch.expires_at < now)
    (hhash : sol.hash = computeHash sha256 ch.challenge_data sol.nonce)
    (hdiff : meetsDifficulty (computeHash sha256 ch.challenge_data sol.nonce)
               ch.difficulty = .ok true) :
    verifySolution sha256 store now sol = (.ok (), alistErase store sol.challenge_id) ∧
    alistFind (alistErase store sol.challenge_id) sol.challenge_id = none ∧
    verifySolution sha256 (alistErase store sol.challenge_id) now sol =
      (.error (.Validation ("Challenge not found: " ++ sol.challenge_id)),
       alistErase store sol.challenge_id) := by
  refine ⟨verifySolution_ok sha256 store now sol ch hfind hexp hhash hdiff,
          alistFind_erase store sol.challenge_id, ?_⟩
  unfold verifySolution
  rw [alistFind_erase]

/-- Witness for C2 at a concrete store, challenge and solution. -/
theorem verify_solution_consumes_once_witness :
    verifySolution (fun _ => List.replicate 32 0)
        [("c1", ⟨"c1", "data", 4, 100, 0⟩)] 50
        ⟨"c1", 7, computeHash (fun _ => List.replicate 32 0) "data" 7⟩ =
      (.ok (), alistErase [("c1", ⟨"c1", "data", 4, 100, 0⟩)] "c1") ∧
    alistFind (alistErase [("c1", (⟨"c1", "data", 4, 100, 0⟩ : PowChallenge))] "c1") "c1"
      = none ∧
    verifySolution (fun _ => List.replicate 32 0)
        (alistErase [("c1", ⟨"c1", "data", 4, 100, 0⟩)] "c1") 50
        ⟨"c1", 7, computeHash (fun _ => List.replicate 32 0) "data" 7⟩ =
      (.error (.Validation ("Challenge not found: " ++ "c1")),
       alistErase [("c1", ⟨"c1", "data", 4, 100, 0⟩)] "c1") :=
  verify_solution_consumes_once (fun _ => List.replicate 32 0)
    [("c1", ⟨"c1", "data", 4, 100, 0⟩)] 50
    ⟨"c1", 7, computeHash (fun _ => List.replicate 32 0) "data" 7⟩
    ⟨"c1", "data", 4, 100, 0⟩ rfl (by decide) rfl rfl

/-- C6: once now is past expires_at, verify_solution returns the
ChallengeExpired error and removes the entry; afterwards any submission
with that challenge_id, at any time, returns the ChallengeNotFound
error. -/
theorem verify_solution_expired_unreachable (sha256 : List Nat → List Nat)
    (store : ChallengeStore) (now : Int) (sol : PowSolution) (ch : PowChallenge)
    (hfind : alistFind store sol.challenge_id = some ch)
    (hexp : ch.expires_at < now) :
    verifySolution sha256 store now sol =
      (.error (.Validation "Challenge has expired"), alistErase store sol.challenge_id) ∧
    ∀ (now2 : Int) (sol2 : PowSolution), sol2.challenge_id = sol.challenge_id →
      verifySolution sha256 (alistErase store sol.challenge_id) now2 sol2 =
        (.error (.Validation ("Challenge not found: " ++ sol2.challenge_id)),
         alistErase store sol.challenge_id) := by
  constructor
  · unfold verifySolution
    rw [hfind]
    dsimp only
    rw [if_pos hexp]
  · intro now2 sol2 h2
    unfold verifySolution
    rw [h2, alistFind_erase]

/-- Witness for C6 at a concrete expired challenge. -/
theorem verify_solution_expired_unreachable_witness :
    verifySolution (fun _ => List.replicate 32 0)
        [("c1", ⟨"c1", "data", 4, 100, 0⟩)] 200 ⟨"c1", 7, "h"⟩ =
      (.error (.Validation "Challenge has expired"),
       alistErase [("c1", ⟨"c1", "data", 4, 100, 0⟩)] "c1") ∧
    verifySolution (fun _ => List.replicate 32 0)
        (alistErase [("c1", ⟨"c1", "data", 4, 100, 0⟩)] "c1") 300 ⟨"c1", 9, "zz"⟩ =
      (.error (.Validation ("Challenge not found: " ++ "c1")),
       alistErase [("c1", ⟨"c1", "data", 4, 100, 0⟩)] "c1") :=
  ⟨(verify_solution_expired_unreachable (fun _ => List.replicate 32 0)
      [("c1", ⟨"c1", "data", 4, 100, 0⟩)] 200 ⟨"c1", 7, "h"⟩
      ⟨"c1", "data", 4, 100, 0⟩ rfl (by decide)).1,
   (verify_solution_expired_unreachable (fun _ => List.replicate 32 0)
      [("c1", ⟨"c1", "data", 4, 100, 0⟩)] 200 ⟨"c1", 7, "h"⟩
      ⟨"c1", "data", 4, 100, 0⟩ rfl (by decide)).2 300 ⟨"c1", 9, "zz"⟩ rfl⟩

/-- C8: meets_difficulty is monotone in the difficulty: a hash whose
leading-zero count satisfies difficulty d + 1 also satisfies d. -/
theorem meets_difficulty_monotone (hash : String) (d : Nat)
    (h : meetsDifficulty hash (d + 1) = .ok true) :
    meetsDifficulty hash d = .ok true := by
  unfold meetsDifficulty at h ⊢
  cases hb : base64Decode hash with
  | none =>
      rw [hb] at h
      exact Except.noConfusion h
  | some bytes =>
      rw [hb] at h
      simp only [Except.ok.injEq, decide_eq_true_eq] at h ⊢
      omega

/-- Witness for C8: a hash of zero bytes meets difficulty 4, hence 3. -/
theorem meets_difficulty_monotone_witness :
    meetsDifficulty "AAAA" 4 = .ok true ∧ meetsDifficulty "AAAA" 3 = .ok true :=
  ⟨rfl, meets_difficulty_monotone "AAAA" 3 rfl⟩

/-- C10: a verification failing with InvalidSolution (submitted hash does
not equal the recomputed hash) or DifficultyNotMet leaves the challenge
store unchanged, and the same unexpired challenge can still be consumed
by a later correct submission. -/
theorem verify_solution_failure_preserves_store (sha256 : List Nat → List Nat)
    (store : ChallengeStore) (now : Int) (sol : PowSolution) (ch : PowChallenge)
    (hfind : alistFind store sol.challenge_id = some ch)
    (hexp : ¬ ch.expires_at < now) :
    (sol.hash ≠ computeHash sha256 ch.challenge_data sol.nonce →
       verifySolution sha256 store now sol =
         (.error (.Validation "Invalid hash in solution"), store)) ∧
    (sol.hash = computeHash sha256 ch.challenge_data sol.nonce →
     meetsDifficulty (computeHash sha256 ch.challenge_data sol.nonce)
         ch.difficulty = .ok false →
       verifySolution sha256 store now sol =
         (.error (.Validation ("Hash does not meet difficulty requirement of " ++
            toString ch.difficulty ++ " leading zeros")), store)) ∧
    (∀ sol2 : PowSolution, sol2.challenge_id = sol.challenge_id →
       sol2.hash = computeHash sha256 ch.challenge_data sol2.nonce →
       meetsDifficulty (computeHash sha256 ch.challenge_data sol2.nonce)
           ch.difficulty = .ok true →
       verifySolution sha256 store now sol2 =
         (.ok (), alistErase store sol2.challenge_id)) := by
  refine ⟨?_, ?_, ?_⟩
  · intro hne
    unfold verifySolution
    rw [hfind]
    dsimp only
    rw [if_neg hexp, if_pos (Ne.symm hne)]
  · intro hh hdm
    unfold verifySolution
    rw [hfind]
    dsimp only
    rw [if_neg hexp, if_neg (not_not_intro hh.symm), hdm]
    rfl
  · intro sol2 hid hh2 hd2
    exact verifySolution_ok sha256 store now sol2 ch (by rw [hid]; exact hfind) hexp hh2 hd2

/-- Witness for C10: a wrong hash and a too-shallow hash leave the
concrete store unchanged; the correct solution still consumes it. -/
theorem verify_solution_failure_preserves_store_witness :
    verifySolution (fun _ => List.replicate 32 0)
        [("c1", ⟨"c1", "data", 4, 100, 0⟩)] 50 ⟨"c1", 7, "WRONG"⟩ =
      (.error (.Validation "Invalid hash in solution"),
       [("c1", ⟨"c1", "data", 4, 100, 0⟩)]) ∧
    verifySolution (fun _ => List.replicate 32 255)
        [("c1", ⟨"c1", "data", 4, 100, 0⟩)] 50
        ⟨"c1", 7, computeHash (fun _ => List.replicate 32 255) "data" 7⟩ =
      (.error (.Validation ("Hash does not meet difficulty requirement of " ++
         toString (4 : Nat) ++ " leading zeros")),
       [("c1", ⟨"c1", "data", 4, 100, 0⟩)]) ∧
    verifySolution (fun _ => List.replicate 32 0)
        [("c1", ⟨"c1", "data", 4, 100, 0⟩)] 50
        ⟨"c1", 7, computeHash (fun _ => List.replicate 32 0) "data" 7⟩ =
      (.ok (), alistErase [("c1", ⟨"c1", "data", 4, 100, 0⟩)] "c1") :=
  ⟨(verify_solution_failure_preserves_store (fun _ => List.replicate 32 0)
      [("c1", ⟨"c1", "data", 4, 100, 0⟩)] 50 ⟨"c1", 7, "WRONG"⟩
      ⟨"c1", "data", 4, 100, 0⟩ rfl (by decide)).1 (by decide),
   (verify_solution_failure_preserves_store (fun _ => List.replicate 32 255)
      [("c1", ⟨"c1", "data", 4, 100, 0⟩)] 50
      ⟨"c1", 7, computeHash (fun _ => List.replicate 32 255) "data" 7⟩
      ⟨"c1", "data", 4, 100, 0⟩ rfl (by decide)).2.1 rfl rfl,
   (verify_solution_failure_preserves_store (fun _ => List.replicate 32 0)
      [("c1", ⟨"c1", "data", 4, 100, 0⟩)] 50 ⟨"c1", 7, "WRONG"⟩
      ⟨"c1", "data", 4, 100, 0⟩ rfl (by decide)).2.2
      ⟨"c1", 7, computeHash (fun _ => List.replicate 32 0) "data" 7⟩ rfl rfl rfl⟩

/-- C5: the Auth Gate middleware decides every inbound request exactly as
the specified state machine: public paths admitted without credentials;
protected paths rejected Unauthorized (401) on absent/malformed/invalid
bearer token or on a revoked subject, rejected InternalError (500) when
the revocation lookup fails (fail closed), otherwise admitted. -/
theorem middleware_matches_gate_spec (now : Int) (req : GateRequest) :
    cryptoValidationMiddleware now req = gateSpecDecision now req := by
  unfold cryptoValidationMiddleware gateSpecDecision revocationLookup
  cases hskip : shouldSkipValidation req.path with
  | true => rfl
  | false =>
      simp only [Bool.false_eq_true, if_false]
      cases hex : extractToken req.authorization with
      | none => rfl
      | some tok =>
          dsimp only
          cases hvb : validateBearer now tok with
          | error e => rfl
          | ok claims =>
              dsimp only
              cases hdb : req.db with
              | none => rfl
              | some q =>
                  dsimp only
                  cases hq : q claims.device_id with
                  | error e => rfl
                  | ok b => cases b <;> rfl

/-- C7: revoke makes is_revoked true; clear_revocation makes it false;
clear_revocation of an absent id is a no-op; is_revoked of an absent id
is false. -/
theorem revocation_repo_semantics (t : RevocationTable) (id : String) :
    RevocationRepo.isRevoked (RevocationRepo.revoke t id) id = true ∧
    RevocationRepo.isRevoked (RevocationRepo.clearRevocation t id) id = false ∧
    (alistFind t id = none → RevocationRepo.clearRevocation t id = t) ∧
    (alistFind t id = none → RevocationRepo.isRevoked t id = false) := by
  refine ⟨?_, ?_, ?_, ?_⟩
  · unfold RevocationRepo.revoke RevocationRepo.isRevoked
    cases hf : alistFind t id with
    | some b =>
        dsimp only
        rw [alistFind_map_setval, hf]
        rfl
    | none =>
        dsimp only
        rw [alistFind_append t [(id, true)] id hf]
        simp [alistFind]
  · unfold RevocationRepo.clearRevocation RevocationRepo.isRevoked
    cases hf : alistFind t id with
    | some b =>
        dsimp only
        rw [alistFind_map_setval, hf]
        rfl
    | none =>
        dsimp only
        rw [hf]
        rfl
  · intro hf
    unfold RevocationRepo.clearRevocation
    rw [hf]
  · intro hf
    unfold RevocationRepo.isRevoked
    rw [hf]
    rfl

/-- Witness for C7 at the empty table and a concrete id. -/
theorem revocation_repo_semantics_witness :
    RevocationRepo.isRevoked (RevocationRepo.revoke [] "dev-1") "dev-1" = true ∧
    RevocationRepo.isRevoked (RevocationRepo.clearRevocation [] "dev-1") "dev-1" = false ∧
    RevocationRepo.clearRevocation [] "dev-1" = [] ∧
    RevocationRepo.isRevoked [] "dev-1" = false :=
  ⟨(revocation_repo_semantics [] "dev-1").1,
   (revocation_repo_semantics [] "dev-1").2.1,
   (revocation_repo_semantics [] "dev-1").2.2.1 rfl,
   (revocation_repo_semantics [] "dev-1").2.2.2 rfl⟩

/-- C9: validating, at issuance time, a token just issued by issue_jwt
with a positive ttl succeeds and returns Claims with the same device_id,
user_role and phone_number. -/
theorem issue_validate_roundtrip (now ttl : Int) (d r : String) (p : Option String)
    (h : 0 < ttl) :
    validateJwtAt now (issueJwt now d r p ttl) = .ok ⟨d, r, p, now + ttl⟩ := by
  unfold validateJwtAt issueJwt
  dsimp only
  rw [if_neg (fun hc => hc rfl), if_neg (fun hc => hc rfl)]
  rw [if_neg (show ¬ (now + ttl < now - jwtLeeway) from by unfold jwtLeeway; omega)]

/-- Witness for C9 at concrete inputs. -/
theorem issue_validate_roundtrip_witness :
    (0 : Int) < 3600 ∧
    validateJwtAt 1000 (issueJwt 1000 "dev-1" "seller" (some "555") 3600) =
      .ok ⟨"dev-1", "seller", some "555", 1000 + 3600⟩ :=
  ⟨by decide, issue_validate_roundtrip 1000 3600 "dev-1" "seller" (some "555") (by decide)⟩

/-- validate_jwt fails on every token produced by
JwtService::generate_token: even when the two signing keys coincide, the
payload carries sub/pub_key but no device_id/user_role, so deserializing
the middleware Claims shape fails. -/
theorem validate_minted_token_error (env : String → Option String)
    (nowMint nowGate : Int) (relay_id public_key : String) :
    ∃ e, validateJwtAt nowGate (generateToken env nowMint relay_id public_key)
           = .error e := by
  unfold validateJwtAt generateToken
  dsimp only
  rw [if_neg (fun hc => hc rfl)]
  by_cases hk : jwtServiceSecret env ≠ authModJwtSecret
  · rw [if_pos hk]
    exact ⟨_, rfl⟩
  · rw [if_neg hk]
    by_cases he : (nowMint + 24 * 3600 : Int) < nowGate - jwtLeeway
    · rw [if_pos he]
      exact ⟨_, rfl⟩
    · rw [if_neg he]
      exact ⟨_, rfl⟩

/-- C1: a token minted by the PoW verification endpoint (via
JwtService::generate_token) is never admitted by the Auth Gate on a
protected path: the gate validates with a different compiled-in secret
and a different Claims shape, so validation fails and the request is
rejected 401 for every environment, every mint and gate time, and every
db state. -/
theorem pow_minted_token_always_rejected (env : String → Option String)
    (nowMint nowGate : Int) (relay_id public_key : String)
    (db : Option (String → Except Unit Bool)) :
    cryptoValidationMiddleware nowGate
      { path := "/api/v1/stores"
        authorization := .bearerJwt (generateToken env nowMint relay_id public_key)
        db := db } = .rejected 401 := by
  obtain ⟨e, he⟩ := validate_minted_token_error env nowMint nowGate relay_id public_key
  unfold cryptoValidationMiddleware
  rw [if_neg (show ¬ (shouldSkipValidation "/api/v1/stores" = true) from by decide)]
  dsimp only [extractToken, validateBearer]
  rw [he]

/-- Every error verify_solution can return is an AppError::Validation,
which AppError::into_response maps to status 400. -/
theorem verifySolution_error_statusCode (sha256 : List Nat → List Nat)
    (store : ChallengeStore) (now : Int) (sol : PowSolution) (e : AppError)
    (herr : (verifySolution sha256 store now sol).1 = .error e) :
    e.statusCode = 400 := by
  unfold verifySolution at herr
  cases hf : alistFind store sol.challenge_id with
  | none =>
      rw [hf] at herr
      dsimp only at herr
      injection herr with h2
      subst h2
      rfl
  | some ch =>
      rw [hf] at herr
      dsimp only at herr
      split at herr
      · injection herr with h2
        subst h2
        rfl
      · split at herr
        · injection herr with h2
          subst h2
          rfl
        · split at herr
          · rename_i e0 heq
            injection herr with h2
            subst h2
            unfold meetsDifficulty at heq
            cases hb : base64Decode (computeHash sha256 ch.challenge_data sol.nonce) with
            | none =>
                rw [hb] at heq
                injection heq with h3
                subst h3
                rfl
            | some bytes =>
                rw [hb] at heq
                exact Except.noConfusion heq
          · split at herr
            · exact Except.noConfusion herr
            · injection herr with h2
              subst h2
              rfl

/-- C3: POST /pow/verify responds 200 with a token exactly when the
solution verifies, and responds 400 (Bad Request, via
AppError::Validation in into_response) on every PoW validation failure -
never the documented 422. -/
theorem pow_verify_status_never_422 (sha256 : List Nat → List Nat)
    (env : String → Option String) (store : ChallengeStore) (now : Int)
    (req : VerificationRequest) :
    ((verifyPowSolutionHandler sha256 env store now req).1).1 =
      (match (verifySolution sha256 store now req.solution).1 with
       | .ok _ => 200
       | .error _ => 400) := by
  unfold verifyPowSolutionHandler
  rcases hv : verifySolution sha256 store now req.solution with ⟨res, st⟩
  cases res with
  | ok u => rfl
  | error e =>
      dsimp only
      exact verifySolution_error_statusCode sha256 store now req.solution e
        (by rw [hv])

/-- C4: the HMAC keys actually used are compiled into the binary: issue_jwt
and validate_jwt always sign/verify with the constant
"super_secret_key_change_me" whatever the environment holds, and
JwtService falls back to the compiled-in default when JWT_SECRET is
unset, while using the environment value when it is set. -/
theorem signing_keys_are_compiled_in :
    (∀ (now : Int) (d r : String) (p : Option String) (ttl : Int),
       (issueJwt now d r p ttl).macKey = "super_secret_key_change_me") ∧
    jwtServiceSecret (fun _ => none) = "your-secret-key-change-in-production" ∧
    (∀ s : String,
       jwtServiceSecret (fun k => if k = "JWT_SECRET" then some s else none) = s) :=
  ⟨fun _ _ _ _ _ => rfl, rfl, fun _ => rfl⟩

end Transac
